import Mathlib

/-!
AuditAI: shallow embedding of the audit rule engine.

This file embeds, in Lean, the reconciliation and rule-evaluation engine of
the AuditAI repository: the type declarations (`CheckStatus`, `AuditResult`,
`LineItem`, `ExtractedData` and its nested records), the business-rule
function `runAuditRules` (the eight sequential rule blocks of the orchestrating
module), the item aggregator `aggregateItems` with its fuzzy fallback matcher,
and the CNPJ auto-correction pre-pass performed by `handleAnalyze` before the
rules run.

Modelling conventions (each noted again at the definition it concerns):
* JavaScript numbers (monetary values and quantities) are modelled as exact
  rationals `ℚ`; the source only adds, subtracts and compares them against
  small tolerances.
* ISO calendar date strings (`YYYY-MM-DD`) are modelled as a `Date` record of
  three integers; the source compares them via `new Date(...) >= ...`, which
  for ISO dates is the lexicographic order on (year, month, day).
* JavaScript string truthiness (`if (s)`) on nullable strings is modelled by
  `strTruthy : Option String → Bool` (false exactly on `null` and `""`).
* Locale-specific rendering (`formatCurrency`, zero-padding in `formatDate`)
  is presentation-only in the source; it is modelled by plain decimal
  rendering.  No property proved below depends on that rendering.
* JavaScript string operations are ASCII-faithful here: the regexes of the
  source (`[^a-zA-Z0-9]`, `\D`) are ASCII classes, and `toLowerCase` agrees
  with ASCII lowering on their output.
-/

namespace AuditAI

/-- Type CheckStatus from types.ts: PENDING, PASS, FAIL, WARNING. -/
inductive CheckStatus where
  | PENDING
  | PASS
  | FAIL
  | WARNING
deriving DecidableEq

/-- An entry of `AuditResult.subItems`: `{ label; status; details }`. -/
structure SubItem where
  label : String
  status : CheckStatus
  details : String
deriving DecidableEq

/-- Type AuditResult from types.ts.  `details`, `recommendation` and `subItems`
are optional fields in the source. -/
structure AuditResult where
  id : String
  title : String
  description : String
  status : CheckStatus
  details : Option String := none
  recommendation : Option String := none
  subItems : Option (List SubItem) := none
deriving DecidableEq

/-- An ISO calendar date `YYYY-MM-DD`.  The source keeps dates as strings and
compares them through `new Date(...)`; for ISO dates that comparison is the
lexicographic order on (year, month, day) modelled by `Date.leb`. -/
structure Date where
  year : Int
  month : Int
  day : Int
deriving DecidableEq

/-- Comparison of ISO dates, as performed by JS `new Date(a) <= new Date(b)`: lexicographic comparison. -/
def Date.leb (a b : Date) : Bool :=
  if a.year ≠ b.year then decide (a.year < b.year)
  else if a.month ≠ b.month then decide (a.month < b.month)
  else decide (a.day ≤ b.day)

/-- Type SicafDates from types.ts: the five certificate validity dates. -/
structure SicafDates where
  federal_pgfn : Option Date
  fgts : Option Date
  trabalhista : Option Date
  estadual_distrital : Option Date
  municipal : Option Date
deriving DecidableEq

/-- Type LineItem from types.ts; `quantity` is a JS number, modelled as `ℚ`. -/
structure LineItem where
  description : String
  partNumber : Option String
  quantity : ℚ
  unit : Option String
deriving DecidableEq

/-- The `sicaf` section of `ExtractedData`. -/
structure Sicaf where
  found : Bool
  cnpj : Option String
  validityDates : SicafDates
deriving DecidableEq

/-- The `termoRecebimento` section of `ExtractedData`. -/
structure TermoRecebimento where
  found : Bool
  cnpj : Option String
  signatureDate : Option Date
  isDefinitive : Bool
  bulletinDate : Option Date
  hasContractReference : Bool
  contractStartYear : Option Int
  totalValue : Option ℚ
  contractNumber : Option String
deriving DecidableEq

/-- The `notaFiscal` section of `ExtractedData`. -/
structure NotaFiscal where
  found : Bool
  number : Option String
  supplierName : Option String
  cnpj : Option String
  possibleCnpjs : List String
  emissionDate : Option Date
  grossValue : Option ℚ
  liquidValue : Option ℚ
  isMaterial : Bool
  isService : Bool
  items : List LineItem
deriving DecidableEq

/-- One `empenhos` entry of the `relatorioFatura` section. -/
structure Empenho where
  ne : String
  nd : String
  value : ℚ
deriving DecidableEq

/-- The `relatorioFatura` section of `ExtractedData`. -/
structure RelatorioFatura where
  found : Bool
  emissionDate : Option Date
  arrivalDate : Option Date
  dueDate : Option Date
  totalValue : Option ℚ
  empenhos : List Empenho
deriving DecidableEq

/-- The `rmm` section of `ExtractedData`. -/
structure Rmm where
  found : Bool
  items : List LineItem
deriving DecidableEq

/-- The `informacaoAdministrativa` section of `ExtractedData`. -/
structure InformacaoAdministrativa where
  found : Bool
  substitutesRmm : Bool
  justifiesServiceND : Bool
  justification : Option String
  wrongDocumentDetected : Bool
deriving DecidableEq

/-- Type ExtractedData from types.ts: the document bundle consumed by the rules. -/
structure ExtractedData where
  sicaf : Sicaf
  termoRecebimento : TermoRecebimento
  notaFiscal : NotaFiscal
  relatorioFatura : RelatorioFatura
  rmm : Rmm
  informacaoAdministrativa : InformacaoAdministrativa
deriving DecidableEq

/-! String helpers mirroring the JavaScript operations. -/

/-- JS truthiness of a nullable string: false exactly for `null` and `""`. -/
def strTruthy : Option String → Bool
  | none => false
  | some s => s ≠ ""

/-- Mirrors the JS expression that keeps ASCII
alphanumerics, lower-case them. -/
def normalizeStr (s : String) : String :=
  String.mk ((s.data.filter Char.isAlphanum).map Char.toLower)

/-- Function normalize from the RMM rule block: on null it yields the empty
string, otherwise it strips non-alphanumerics and lower-cases. -/
def normalize : Option String → String
  | none => ""
  | some s => normalizeStr s

/-- Mirrors the JS digit-stripping replace: keep ASCII digits only. -/
def normDigits (s : String) : String :=
  String.mk (s.data.filter Char.isDigit)

/-- Mirrors `str.substring(0, n)` (on the ASCII output of `normalizeStr` this agrees
with the UTF-16 based JS semantics). -/
def takeStr (n : Nat) (s : String) : String :=
  String.mk (s.data.take n)

/-- Mirrors `str.toLowerCase()`, ASCII-faithful. -/
def toLowerStr (s : String) : String :=
  String.mk (s.data.map Char.toLower)

/-- Mirrors `hay.includes(needle)`: substring test. -/
def strIncludes (hay needle : String) : Bool :=
  hay.data.tails.any (fun t => needle.data.isPrefixOf t)

/-- Rendering of `a || b` inside a JS template literal: the first operand if
truthy, otherwise the second, with `null` rendered as the text `null`. -/
def jsOrShow (a b : Option String) : String :=
  if strTruthy a then a.getD ""
  else match b with
    | some s => s
    | none => "null"

/-- Function formatDate from utils.ts turns `YYYY-MM-DD` into `DD/MM/YYYY`; the
zero-padding of the source string is presentation-only and not modelled. -/
def fmtDate (dt : Date) : String :=
  toString dt.day ++ "/" ++ toString dt.month ++ "/" ++ toString dt.year

/-- Function formatCurrency from utils.ts renders a pt-BR currency string; modelled
as plain rendering of the exact rational.  No claim depends on the format. -/
def fmtCurrency (q : ℚ) : String :=
  "R$ " ++ toString q

/-! Item aggregation and fuzzy matching, from the RMM rule block. -/

/-- Interface AggregatedItem of the RMM rule block. -/
structure AggregatedItem where
  totalQty : ℚ
  description : String
  partNumber : Option String
  originalCount : Nat
deriving DecidableEq

/-- Aggregation key of one line item: the normalized part number when the part
number is present and longer than 2 characters, otherwise the first 30
characters of the normalized description.  (JS truthiness of the part number
adds nothing here: an empty string never has length above 2.) -/
def itemKey (it : LineItem) : String :=
  match it.partNumber with
  | some pn =>
      if pn.length > 2 then normalizeStr pn
      else takeStr 30 (normalizeStr it.description)
  | none => takeStr 30 (normalizeStr it.description)

/-- Update of an existing aggregation entry by one more item: add the
quantity, bump the count, keep the strictly longest description. -/
def updEntry (e : AggregatedItem) (it : LineItem) : AggregatedItem :=
  { e with
    totalQty := e.totalQty + it.quantity
    originalCount := e.originalCount + 1
    description :=
      if e.description.length < it.description.length then it.description
      else e.description }

/-- In-place mutation of the entry bound to `key` in the JS Map, modelled on
the insertion-ordered association list (keys are unique, so updating the
first binding is updating the binding). -/
def updateAt (key : String) (f : AggregatedItem → AggregatedItem) :
    List (String × AggregatedItem) → List (String × AggregatedItem)
  | [] => []
  | (a, b) :: rest =>
      if a = key then (a, f b) :: rest else (a, b) :: updateAt key f rest

/-- One Map step of `aggregateItems`: create a zeroed entry when the key is
new (JS `Map.set` appends at the end, preserving insertion order), then
update the entry for the key. -/
def insertItem (m : List (String × AggregatedItem)) (it : LineItem) :
    List (String × AggregatedItem) :=
  let key := itemKey it
  let m1 :=
    if (m.lookup key).isSome then m
    else m ++ [(key, ⟨0, it.description, it.partNumber, 0⟩)]
  updateAt key (fun e => updEntry e it) m1

/-- Function aggregateItems of the RMM rule block: fold the items into an
insertion-ordered association list keyed by `itemKey` (the JS `Map`). -/
def aggregateItems (items : List LineItem) : List (String × AggregatedItem) :=
  items.foldl insertItem []

/-- Mirrors the JS single-space split (keeping empty pieces, as
`split(' ')` does), implemented on the character list so that it
evaluates. -/
def splitSp (l : List Char) : List (List Char) :=
  l.foldr
    (fun ch acc =>
      if ch = ' ' then [] :: acc
      else match acc with
        | [] => [[ch]]
        | g :: gs => (ch :: g) :: gs)
    [[]]

/-- Fuzzy tokens of a description: lower-cased words (split on single
spaces) longer than 3 characters. -/
def fuzzyTokens (desc : String) : List String :=
  ((splitSp (toLowerStr desc).data).map String.mk).filter
    (fun w => w.length > 3)

/-- First stock-entry group whose lower-cased description contains one of the
tokens as a substring (the for-loop with `break` over `rmmMap.values()`). -/
def fuzzyFind (toks : List String) (rmmMap : List (String × AggregatedItem)) :
    Option AggregatedItem :=
  (rmmMap.map Prod.snd).find?
    (fun r => toks.any (fun t => strIncludes (toLowerStr r.description) t))

/-- Lookup of one aggregated invoice group in the stock-entry map: direct key
lookup, then — only when the group recorded a truthy part number — the fuzzy
description fallback. -/
def findRmmMatch (rmmMap : List (String × AggregatedItem)) (key : String)
    (nfItem : AggregatedItem) : Option AggregatedItem :=
  match rmmMap.lookup key with
  | some r => some r
  | none =>
      if strTruthy nfItem.partNumber then
        fuzzyFind (fuzzyTokens nfItem.description) rmmMap
      else none

/-- Label of one RMM sub-finding: part number (or S/N) and the first 30
characters of the description. -/
def rmmLabel (nfItem : AggregatedItem) : String :=
  (if strTruthy nfItem.partNumber then nfItem.partNumber.getD "" else "S/N")
    ++ " - " ++ takeStr 30 nfItem.description ++ "..."

/-- One iteration of the RMM cross-check loop: push the sub-finding for the
group and update the running overall status (WARNING unless already FAIL on a
quantity mismatch; FAIL on a missing item). -/
def rmmStep (rmmMap : List (String × AggregatedItem))
    (acc : List SubItem × CheckStatus) (e : String × AggregatedItem) :
    List SubItem × CheckStatus :=
  let nfItem := e.2
  match findRmmMatch rmmMap e.1 nfItem with
  | some r =>
      if |r.totalQty - nfItem.totalQty| < 1/100 then
        (acc.1 ++ [⟨rmmLabel nfItem, CheckStatus.PASS,
            "Qtd Total NF: " ++ toString nfItem.totalQty
              ++ " = Qtd Total RMM: " ++ toString r.totalQty⟩],
         acc.2)
      else
        (acc.1 ++ [⟨rmmLabel nfItem, CheckStatus.WARNING,
            "Divergência Qtd: NF(" ++ toString nfItem.totalQty
              ++ ") vs RMM(" ++ toString r.totalQty ++ ")"⟩],
         if acc.2 ≠ CheckStatus.FAIL then CheckStatus.WARNING else acc.2)
  | none =>
      (acc.1 ++ [⟨rmmLabel nfItem, CheckStatus.FAIL,
          "Item não encontrado no RMM"⟩],
       CheckStatus.FAIL)

/-- The full RMM cross-check loop over the aggregated invoice groups, with
the sub-finding list and the overall status (initially PASS). -/
def rmmScan (nfMap rmmMap : List (String × AggregatedItem)) :
    List SubItem × CheckStatus :=
  nfMap.foldl (rmmStep rmmMap) ([], CheckStatus.PASS)

/-! The eight rule blocks of runAuditRules, in source order.  The source
pushes findings into a single results array; each block below returns the
list of findings it pushes, and `runAuditRules` concatenates them in the
same order. -/

/-- Rule block 0: document validation of the administrative information. -/
def rule0 (d : ExtractedData) : List AuditResult :=
  if d.informacaoAdministrativa.wrongDocumentDetected then
    [{ id := "doc-validation-info-admin"
       title := "Validação de Documentos"
       description := "Verificação da integridade e tipologia dos documentos apresentados."
       status := CheckStatus.FAIL
       details := some "ERRO DE DOCUMENTAÇÃO: O sistema detectou que o arquivo nomeado ou enviado como \"Informação Administrativa\" na verdade contém uma Nota Fiscal (DANFE). \n\nIsso indica que o documento correto de justificativa não foi anexado ou houve troca de arquivos."
       recommendation := some "Verifique os nomes dos arquivos. Remova a Nota Fiscal duplicada e anexe a Informação Administrativa correta." }]
  else []

/-- One sub-item of the detailed SICAF check.  The source initializes the
status to PENDING and the details to a placeholder, and every branch
overwrites both before the sub-item is returned. -/
def sicafSub (signatureDate : Date) (label : String) (dateStr : Option Date) :
    SubItem :=
  match dateStr with
  | some certDate =>
      if Date.leb signatureDate certDate then
        ⟨label, CheckStatus.PASS, fmtDate certDate⟩
      else
        ⟨label, CheckStatus.FAIL, fmtDate certDate ++ " (Vencido)"⟩
  | none => ⟨label, CheckStatus.FAIL, "Data não encontrada"⟩

/-- The five certificates checked by the SICAF rule, in source order. -/
def certChecks (d : ExtractedData) : List (String × Option Date) :=
  [("Receita Federal e PGFN", d.sicaf.validityDates.federal_pgfn),
   ("FGTS", d.sicaf.validityDates.fgts),
   ("Trabalhista", d.sicaf.validityDates.trabalhista),
   ("Estadual/Distrital", d.sicaf.validityDates.estadual_distrital),
   ("Municipal", d.sicaf.validityDates.municipal)]

/-- The fallback finding of the SICAF rule when the basic documents are
missing. -/
def sicafMissing : AuditResult :=
  { id := "sicaf-missing"
    title := "Validação SICAF"
    description := "Verificação da existência do SICAF e Termo de Recebimento."
    status := CheckStatus.WARNING
    details := some "Não foi possível realizar o cruzamento de datas. Verifique se o SICAF e o Termo de Recebimento (com data de assinatura) foram enviados." }

/-- Rule block 1: detailed SICAF certificate-validity check. -/
def rule1 (d : ExtractedData) : List AuditResult :=
  match d.sicaf.found, d.termoRecebimento.found,
        d.termoRecebimento.signatureDate with
  | true, true, some signatureDate =>
      let subItems := (certChecks d).map (fun c => sicafSub signatureDate c.1 c.2)
      let hasFailures := subItems.any (fun i => i.status == CheckStatus.FAIL)
      [{ id := "sicaf-detailed"
         title := "Regularidade SICAF"
         description := "Conferência das validades em relação à data de assinatura do Termo (" ++ fmtDate signatureDate ++ ")."
         status := if hasFailures then CheckStatus.FAIL else CheckStatus.PASS
         details := some (if hasFailures then "Uma ou mais certidões estavam vencidas ou não foram encontradas na data da assinatura." else "Todas as certidões estavam vigentes na data da assinatura.")
         recommendation := if hasFailures then some "Solicitar SICAF atualizado ou devolver Nota Fiscal." else none
         subItems := some subItems }]
  | _, _, _ => [sicafMissing]

/-- Insertion into the JS `Set` of normalized identifiers: sets preserve
insertion order and drop duplicates. -/
def setInsert (l : List String) (x : String) : List String :=
  if l.contains x then l else l ++ [x]

/-- The CNPJ set and source list built by rule block 2: for each truthy raw
identifier (NF, Termo, SICAF in source order) insert its digit-normalized
form into the set and record the labelled raw value. -/
def cnpjAcc (d : ExtractedData) : List String × List String :=
  [("NF", d.notaFiscal.cnpj), ("Termo", d.termoRecebimento.cnpj),
   ("SICAF", d.sicaf.cnpj)].foldl
    (fun acc src =>
      if strTruthy src.2 then
        (setInsert acc.1 (normDigits (src.2.getD "")),
         acc.2 ++ [src.1 ++ ": " ++ src.2.getD ""])
      else acc)
    ([], [])

/-- Rule block 2: CNPJ consistency across the documents. -/
def rule2 (d : ExtractedData) : List AuditResult :=
  let cnpjs := (cnpjAcc d).1
  let cnpjSources := (cnpjAcc d).2
  if cnpjs.length > 1 then
    [{ id := "cnpj-match"
       title := "Consistência de CNPJ"
       description := "O CNPJ deve ser o mesmo em todos os documentos."
       status := CheckStatus.FAIL
       details := some ("Divergência encontrada:\n" ++ String.intercalate "\n" cnpjSources)
       recommendation := some "Verificar se os documentos pertencem ao mesmo processo." }]
  else if cnpjs.length = 1 then
    [{ id := "cnpj-match"
       title := "Consistência de CNPJ"
       description := "Verificação do fornecedor nos documentos."
       status := CheckStatus.PASS
       details := some ("CNPJ " ++ jsOrShow d.notaFiscal.cnpj d.termoRecebimento.cnpj ++ " consistente em todos os documentos.") }]
  else []

/-- Rule block 3: definitive acceptance of the receipt term. -/
def rule3 (d : ExtractedData) : List AuditResult :=
  if d.termoRecebimento.found then
    if d.termoRecebimento.isDefinitive then
      [{ id := "tr-definitive"
         title := "Termo de Recebimento"
         description := "Verificação do aceite definitivo."
         status := CheckStatus.PASS
         details := some "Consta \"recebido e aceito definitivamente\"." }]
    else
      [{ id := "tr-definitive"
         title := "Termo de Recebimento"
         description := "Verificação do aceite definitivo."
         status := CheckStatus.FAIL
         details := some "A expressão \"recebido e aceito definitivamente\" não foi encontrada. Pode ser um recebimento provisório ou parcial."
         recommendation := some "Devolver para correção do Termo de Recebimento." }]
  else []

/-- The PASS finding of rule block 4. -/
def valuePassF (nfGross trTotal : ℚ) : AuditResult :=
  { id := "value-check-gross"
    title := "Conferência de Valores"
    description := "Comparação do Valor Bruto da NF com o Termo de Recebimento."
    status := CheckStatus.PASS
    details := some ("Valor Bruto NF (" ++ fmtCurrency nfGross ++ ") confere com o Termo de Recebimento (" ++ fmtCurrency trTotal ++ ").") }

/-- The FAIL finding of rule block 4 (receipt filled with the net amount). -/
def valueFailF (nfGross trTotal : ℚ) : AuditResult :=
  { id := "value-check-gross"
    title := "Conferência de Valores"
    description := "O Termo de Recebimento deve utilizar o Valor Bruto (Total) da Nota Fiscal."
    status := CheckStatus.FAIL
    details := some ("ERRO CRÍTICO: O Termo de Recebimento está preenchido com o Valor Líquido (" ++ fmtCurrency trTotal ++ "). Deveria ser o Valor Bruto (" ++ fmtCurrency nfGross ++ ").")
    recommendation := some "Corrigir Termo de Recebimento para constar o Valor Total da Nota." }

/-- The WARNING finding of rule block 4 (unexplained divergence). -/
def valueWarnF (nfGross trTotal : ℚ) : AuditResult :=
  { id := "value-check-gross"
    title := "Conferência de Valores"
    description := "Comparação do Valor Bruto da NF com o Termo de Recebimento."
    status := CheckStatus.WARNING
    details := some ("Divergência de valores. NF Bruto: " ++ fmtCurrency nfGross ++ " | TR Total: " ++ fmtCurrency trTotal ++ ".")
    recommendation := some "Verificar se há erro de digitação ou faturamento parcial." }

/-- Rule block 4: gross-versus-receipt value reconciliation (tolerance 0.05,
modelled as the exact rational 5/100).  The JS guard on the liquid value
(non-null and within tolerance) is modelled with `Option.any`. -/
def rule4 (d : ExtractedData) : List AuditResult :=
  match d.notaFiscal.found, d.termoRecebimento.found,
        d.notaFiscal.grossValue, d.termoRecebimento.totalValue with
  | true, true, some nfGross, some trTotal =>
      if |nfGross - trTotal| < 5/100 then
        [valuePassF nfGross trTotal]
      else
        if d.notaFiscal.liquidValue.any
            (fun nfLiquid => |nfLiquid - trTotal| < 5/100) then
          [valueFailF nfGross trTotal]
        else
          [valueWarnF nfGross trTotal]
  | _, _, _, _ => []

/-- Rule block 5: contract-year validation.  JS truthiness makes a
contract-start year of 0 skip the rule; `getFullYear()` of an ISO date is its
year field. -/
def rule5 (d : ExtractedData) : List AuditResult :=
  match d.termoRecebimento.found, d.termoRecebimento.bulletinDate,
        d.termoRecebimento.contractStartYear with
  | true, some bulletin, some contractStartYear =>
      if contractStartYear ≠ 0 then
        if bulletin.year < contractStartYear then
          [{ id := "contract-date"
             title := "Comissão vs Contrato"
             description := "Validade da comissão de recebimento."
             status := CheckStatus.FAIL
             details := some ("A comissão (Boletim de " ++ toString bulletin.year ++ ") é anterior ao início do contrato (" ++ toString contractStartYear ++ ").")
             recommendation := some "Verificar designação da comissão." }]
        else []
      else []
  | _, _, _ => []

/-- The detailed NF-versus-RMM finding (stock-entry record present). -/
def rmmDetailed (d : ExtractedData) : AuditResult :=
  if d.notaFiscal.items ≠ [] then
    let nfMap := aggregateItems d.notaFiscal.items
    let rmmMap := aggregateItems d.rmm.items
    let scan := rmmScan nfMap rmmMap
    let matchDetails :=
      if scan.2 = CheckStatus.FAIL then
        "Alguns itens da Nota Fiscal não foram encontrados no RMM."
      else if scan.2 = CheckStatus.WARNING then
        "Itens encontrados, mas com divergência de quantidade acumulada."
      else "Todos os itens da Nota Fiscal foram conferidos no RMM com sucesso."
    { id := "rmm-check-detailed"
      title := "Conferência Detalhada: NF vs RMM"
      description := "Comparação item a item (agrupada por PN) entre Nota Fiscal e Relação de Materiais."
      status := scan.2
      details := some matchDetails
      subItems := if scan.1 ≠ [] then some scan.1 else none }
  else
    { id := "rmm-check-detailed"
      title := "Conferência Detalhada: NF vs RMM"
      description := "Comparação item a item (agrupada por PN) entre Nota Fiscal e Relação de Materiais."
      status := CheckStatus.WARNING
      details := some "RMM encontrado, mas não foi possível extrair a lista de itens da NF para cruzamento."
      subItems := none }

/-- Rule block 6: stock-entry (RMM) reconciliation. -/
def rule6 (d : ExtractedData) : List AuditResult :=
  if d.notaFiscal.found then
    if d.notaFiscal.isMaterial then
      let hasJustification := d.informacaoAdministrativa.found
        && d.informacaoAdministrativa.substitutesRmm
        && !d.informacaoAdministrativa.wrongDocumentDetected
      if d.rmm.found then [rmmDetailed d]
      else if hasJustification then
        [{ id := "rmm-check"
           title := "Entrada em Estoque (RMM)"
           description := "Conferência de entrada de material em estoque."
           status := CheckStatus.PASS
           details := some "Não há RMM, mas foi encontrada Informação Administrativa justificando a não entrada em estoque (consumo imediato ou substituição RMM)." }]
      else
        [{ id := "rmm-check"
           title := "Entrada em Estoque (RMM)"
           description := "Materiais devem ter comprovante de entrada em estoque."
           status := CheckStatus.FAIL
           details := some "A Nota Fiscal contém itens de material/consumo, mas não foi encontrado RMM nem Informação Administrativa justificando a ausência."
           recommendation := some "Solicitar RMM ou Informação Administrativa justificando." }]
    else if d.notaFiscal.isService && !d.notaFiscal.isMaterial then
      [{ id := "rmm-check"
         title := "Entrada em Estoque"
         description := "Verificação de necessidade de RMM."
         status := CheckStatus.PASS
         details := some "Nota Fiscal identificada como Serviço. RMM não é obrigatório." }]
    else []
  else []

/-- Rule block 7: expense-nature (ND) consistency. -/
def rule7 (d : ExtractedData) : List AuditResult :=
  if d.relatorioFatura.found && d.relatorioFatura.empenhos.length > 0 then
    let serviceNDs := d.relatorioFatura.empenhos.filter
      (fun e => strIncludes e.nd "339039")
    if serviceNDs.length > 0 && d.notaFiscal.isMaterial then
      if d.informacaoAdministrativa.found
          && d.informacaoAdministrativa.justifiesServiceND
          && !d.informacaoAdministrativa.wrongDocumentDetected then
        [{ id := "nd-consistency"
           title := "Natureza de Despesa (ND)"
           description := "Compatibilidade da ND com o objeto da NF."
           status := CheckStatus.PASS
           details := some "Uso de ND de Serviço (339039) para materiais devidamente justificado pela Informação Administrativa." }]
      else if d.informacaoAdministrativa.found
          && !d.informacaoAdministrativa.wrongDocumentDetected then
        [{ id := "nd-consistency"
           title := "Natureza de Despesa (ND)"
           description := "Compatibilidade da ND com o objeto da NF."
           status := CheckStatus.PASS
           details := some "Nota com materiais usando ND de Serviço. Informação Administrativa presente (presume-se justificativa)." }]
      else
        [{ id := "nd-consistency"
           title := "Natureza de Despesa (ND)"
           description := "Verificar compatibilidade da ND com o objeto da NF."
           status := CheckStatus.WARNING
           details := some "Identificado empenho com ND de Serviço (339039) para uma Nota Fiscal que contém materiais, sem Informação Administrativa justificando (ex: material aplicado em serviço)."
           recommendation := some "Verificar necessidade de Informação Administrativa para justificar o uso do empenho." }]
    else []
  else []

/-- Function runAuditRules: the eight rule blocks run in source order, their
findings collected into one ordered list. -/
def runAuditRules (d : ExtractedData) : List AuditResult :=
  rule0 d ++ rule1 d ++ rule2 d ++ rule3 d ++ rule4 d ++ rule5 d ++ rule6 d
    ++ rule7 d

/-- Digit normalization of a nullable identifier, with null as the empty
string.  This is the code's ternary `x ? x.replace(...) : ''` (normalizing
the empty string also yields the empty string). -/
def normDigitsOpt (o : Option String) : String :=
  normDigits (o.getD "")

/-- The CNPJ auto-correction pre-pass performed by handleAnalyze before the
rules run: when the receipt carries a truthy identifier whose digit form
differs from the invoice identifier digit form, and the invoice candidate
list holds a (truthy) value with the receipt digit form, the invoice
identifier is replaced by the first such value. -/
def prePass (d : ExtractedData) : ExtractedData :=
  if d.termoRecebimento.found && strTruthy d.termoRecebimento.cnpj
      && d.notaFiscal.found then
    let trCnpj := normDigits (d.termoRecebimento.cnpj.getD "")
    let currentNfCnpj := normDigitsOpt d.notaFiscal.cnpj
    if trCnpj ≠ currentNfCnpj ∧ d.notaFiscal.possibleCnpjs.length > 0 then
      match d.notaFiscal.possibleCnpjs.find? (fun c => normDigits c == trCnpj) with
      | some m =>
          if m ≠ "" then
            { d with notaFiscal := { d.notaFiscal with cnpj := some m } }
          else d
      | none => d
    else d
  else d

/-- The full evaluation of one bundle as performed by handleAnalyze: the
pre-pass, then the rules. -/
def evaluate (d : ExtractedData) : List AuditResult :=
  runAuditRules (prePass d)

/-- An all-absent bundle, used as the base of the concrete bundles that the
witnesses and counterexamples below are evaluated on. -/
def baseData : ExtractedData :=
  { sicaf := ⟨false, none, ⟨none, none, none, none, none⟩⟩
    termoRecebimento := ⟨false, none, none, false, none, false, none, none, none⟩
    notaFiscal := ⟨false, none, none, none, [], none, none, none, false, false, []⟩
    relatorioFatura := ⟨false, none, none, none, none, []⟩
    rmm := ⟨false, []⟩
    informacaoAdministrativa := ⟨false, false, false, none, false⟩ }

/-! Helper lemmas about association-list lookup, used by the aggregation
proofs. -/

lemma lookup_cons_eq (a : String) (x : AggregatedItem)
    (l : List (String × AggregatedItem)) : ((a, x) :: l).lookup a = some x := by
  simp [List.lookup]

lemma lookup_cons_ne (a k : String) (x : AggregatedItem)
    (l : List (String × AggregatedItem)) (h : k ≠ a) :
    ((a, x) :: l).lookup k = l.lookup k := by
  have hf : (k == a) = false := beq_eq_false_iff_ne.mpr h
  simp [List.lookup, hf]

lemma lookup_updateAt (key k : String) (f : AggregatedItem → AggregatedItem)
    (m : List (String × AggregatedItem)) :
    (updateAt key f m).lookup k
      = if k = key then (m.lookup k).map f else m.lookup k := by
  induction m with
  | nil => by_cases hk : k = key <;> simp [updateAt, hk]
  | cons hd rest ih =>
      obtain ⟨a, b⟩ := hd
      by_cases ha : a = key
      · subst ha
        rw [updateAt, if_pos rfl]
        by_cases hk : k = a
        · subst hk
          rw [lookup_cons_eq, if_pos rfl, lookup_cons_eq]
          rfl
        · rw [lookup_cons_ne _ _ _ _ hk, if_neg hk, lookup_cons_ne _ _ _ _ hk]
      · rw [updateAt, if_neg ha]
        by_cases hk : k = a
        · subst hk
          have hkey : k ≠ key := fun h => ha h
          rw [lookup_cons_eq, if_neg hkey, lookup_cons_eq]
        · rw [lookup_cons_ne _ _ _ _ hk, lookup_cons_ne _ _ _ _ hk, ih]

lemma lookup_append (m₁ m₂ : List (String × AggregatedItem)) (k : String) :
    (m₁ ++ m₂).lookup k
      = match m₁.lookup k with
        | some v => some v
        | none => m₂.lookup k := by
  induction m₁ with
  | nil => simp [List.lookup]
  | cons hd tl ih =>
      obtain ⟨a, b⟩ := hd
      by_cases hk : k = a
      · subst hk
        rw [List.cons_append, lookup_cons_eq, lookup_cons_eq]
      · rw [List.cons_append, lookup_cons_ne _ _ _ _ hk,
          lookup_cons_ne _ _ _ _ hk, ih]

lemma lookup_insertItem (m : List (String × AggregatedItem)) (it : LineItem)
    (k : String) :
    (insertItem m it).lookup k
      = if k = itemKey it then
          some (updEntry ((m.lookup k).getD ⟨0, it.description, it.partNumber, 0⟩) it)
        else m.lookup k := by
  unfold insertItem
  cases hlk : m.lookup (itemKey it) with
  | some e =>
      simp only [hlk, Option.isSome_some, if_true]
      rw [lookup_updateAt]
      by_cases hk : k = itemKey it
      · subst hk
        rw [if_pos rfl, if_pos rfl, hlk]
        rfl
      · rw [if_neg hk, if_neg hk]
  | none =>
      simp only [hlk, Option.isSome_none, Bool.false_eq_true, if_false]
      rw [lookup_updateAt]
      by_cases hk : k = itemKey it
      · subst hk
        rw [if_pos rfl, if_pos rfl, lookup_append, hlk]
        simp [lookup_cons_eq]
      · rw [if_neg hk, if_neg hk, lookup_append]
        cases hmk : m.lookup k with
        | some v => rfl
        | none => exact lookup_cons_ne _ _ _ _ hk

/-! Claim C1. -/

/-- C1: the stock-entry reconciliation aggregation groups line items by
`itemKey` (normalized part number when present and longer than 2 characters,
otherwise the normalized description truncated to 30 characters — see the
definition of `itemKey`); a key is present in the aggregate exactly when some
item maps to it, each group's `totalQty` is the sum of its members'
quantities, and the group's representative description is one of its members'
descriptions of maximal length. -/
theorem C1_aggregation (items : List LineItem) (k : String) :
    (((aggregateItems items).lookup k).isSome = true
        ↔ ∃ it ∈ items, itemKey it = k)
    ∧ ∀ a, (aggregateItems items).lookup k = some a →
        a.totalQty
            = ((items.filter (fun it => itemKey it = k)).map
                (fun it => it.quantity)).sum
        ∧ a.description
            ∈ (items.filter (fun it => itemKey it = k)).map
                (fun it => it.description)
        ∧ ∀ it ∈ items.filter (fun it => itemKey it = k),
            it.description.length ≤ a.description.length := by
  induction items using List.reverseRecOn with
  | nil =>
      constructor
      · simp [aggregateItems, List.lookup]
      · intro a ha
        simp [aggregateItems, List.lookup] at ha
  | append_singleton l it ih =>
      have hagg : aggregateItems (l ++ [it]) = insertItem (aggregateItems l) it := by
        simp [aggregateItems, List.foldl_append]
      by_cases hk : k = itemKey it
      · have hfa : (l ++ [it]).filter (fun x => itemKey x = k)
            = l.filter (fun x => itemKey x = k) ++ [it] := by
          rw [List.filter_append]
          simp [hk.symm]
        constructor
        · rw [hagg, lookup_insertItem, if_pos hk]
          simp only [Option.isSome_some, true_iff]
          exact ⟨it, by simp, hk.symm⟩
        · intro a ha
          rw [hagg, lookup_insertItem, if_pos hk] at ha
          cases hold : (aggregateItems l).lookup k with
          | none =>
              have hno : ∀ x ∈ l, ¬ itemKey x = k := by
                intro x hx hxk
                have hs := ih.1.mpr ⟨x, hx, hxk⟩
                rw [hold] at hs
                simp at hs
              have hfl : l.filter (fun x => itemKey x = k) = [] := by
                rw [List.filter_eq_nil_iff]
                intro x hx
                simp [hno x hx]
              rw [hold] at ha
              injection ha with ha'
              subst ha'
              rw [hfa, hfl]
              refine ⟨?_, ?_, ?_⟩
              · simp [updEntry]
              · simp [updEntry]
              · intro x hx
                simp only [List.nil_append, List.mem_singleton] at hx
                subst hx
                simp [updEntry]
          | some e =>
              obtain ⟨he1, he2, he3⟩ := ih.2 e hold
              rw [hold] at ha
              simp only [Option.getD_some] at ha
              injection ha with ha'
              subst ha'
              refine ⟨?_, ?_, ?_⟩
              · rw [hfa, List.map_append, List.sum_append]
                simp [updEntry, he1]
              · rw [hfa, List.map_append]
                by_cases hlen : e.description.length < it.description.length
                · have : (updEntry e it).description = it.description := by
                    simp [updEntry, hlen]
                  rw [this]
                  simp
                · have : (updEntry e it).description = e.description := by
                    simp [updEntry, hlen]
                  rw [this]
                  exact List.mem_append_left _ he2
              · intro x hx
                rw [hfa] at hx
                have hnewlen : e.description.length ≤ (updEntry e it).description.length
                    ∧ it.description.length ≤ (updEntry e it).description.length := by
                  by_cases hlen : e.description.length < it.description.length
                  · simp [updEntry, hlen, Nat.le_of_lt hlen]
                  · simp [updEntry, hlen, Nat.le_of_not_lt hlen]
                rcases List.mem_append.mp hx with hxl | hxr
                · exact le_trans (he3 x hxl) hnewlen.1
                · simp only [List.mem_singleton] at hxr
                  subst hxr
                  exact hnewlen.2
      · have hne : ¬ (itemKey it = k) := fun h => hk h.symm
        have hfa : (l ++ [it]).filter (fun x => itemKey x = k)
            = l.filter (fun x => itemKey x = k) := by
          rw [List.filter_append]
          simp [hne]
        have hl : (aggregateItems (l ++ [it])).lookup k
            = (aggregateItems l).lookup k := by
          rw [hagg, lookup_insertItem, if_neg hk]
        constructor
        · rw [hl, ih.1]
          constructor
          · rintro ⟨x, hx, hxk⟩
            exact ⟨x, List.mem_append_left _ hx, hxk⟩
          · rintro ⟨x, hx, hxk⟩
            rcases List.mem_append.mp hx with hxl | hxr
            · exact ⟨x, hxl, hxk⟩
            · simp only [List.mem_singleton] at hxr
              subst hxr
              exact absurd hxk hne
        · intro a ha
          rw [hl] at ha
          rw [hfa]
          exact ih.2 a ha

/-! Per-rule helper lemmas: which finding ids each rule block can emit, how
many findings it emits, and that no emitted status is PENDING. -/

/-- Position of a finding id in the fixed rule order of the engine. -/
def ruleIndex (id : String) : Nat :=
  if id = "doc-validation-info-admin" then 0
  else if id = "sicaf-detailed" ∨ id = "sicaf-missing" then 1
  else if id = "cnpj-match" then 2
  else if id = "tr-definitive" then 3
  else if id = "value-check-gross" then 4
  else if id = "contract-date" then 5
  else if id = "rmm-check-detailed" ∨ id = "rmm-check" then 6
  else if id = "nd-consistency" then 7
  else 8

lemma rmmDetailed_id (d : ExtractedData) :
    (rmmDetailed d).id = "rmm-check-detailed" := by
  unfold rmmDetailed
  split <;> rfl

lemma rule0_ids (d : ExtractedData) : ∀ f ∈ rule0 d, ruleIndex f.id = 0 := by
  intro f hf
  simp only [rule0] at hf
  repeat' split at hf
  all_goals simp_all [ruleIndex]

lemma rule1_ids (d : ExtractedData) : ∀ f ∈ rule1 d, ruleIndex f.id = 1 := by
  intro f hf
  simp only [rule1] at hf
  repeat' split at hf
  all_goals simp_all [ruleIndex, sicafMissing]

lemma rule2_ids (d : ExtractedData) : ∀ f ∈ rule2 d, ruleIndex f.id = 2 := by
  intro f hf
  simp only [rule2] at hf
  repeat' split at hf
  all_goals simp_all [ruleIndex]

lemma rule3_ids (d : ExtractedData) : ∀ f ∈ rule3 d, ruleIndex f.id = 3 := by
  intro f hf
  simp only [rule3] at hf
  repeat' split at hf
  all_goals simp_all [ruleIndex]

lemma rule4_ids (d : ExtractedData) : ∀ f ∈ rule4 d, ruleIndex f.id = 4 := by
  intro f hf
  simp only [rule4] at hf
  repeat' split at hf
  all_goals simp_all [ruleIndex, valuePassF, valueFailF, valueWarnF]

lemma rule5_ids (d : ExtractedData) : ∀ f ∈ rule5 d, ruleIndex f.id = 5 := by
  intro f hf
  simp only [rule5] at hf
  repeat' split at hf
  all_goals simp_all [ruleIndex]

lemma rule6_ids (d : ExtractedData) : ∀ f ∈ rule6 d, ruleIndex f.id = 6 := by
  intro f hf
  simp only [rule6] at hf
  repeat' split at hf
  all_goals simp_all [ruleIndex, rmmDetailed_id]

lemma rule7_ids (d : ExtractedData) : ∀ f ∈ rule7 d, ruleIndex f.id = 7 := by
  intro f hf
  simp only [rule7] at hf
  repeat' split at hf
  all_goals simp_all [ruleIndex]

lemma rule0_len (d : ExtractedData) : (rule0 d).length ≤ 1 := by
  simp only [rule0]
  repeat' split
  all_goals simp

lemma rule1_len (d : ExtractedData) : (rule1 d).length ≤ 1 := by
  simp only [rule1]
  repeat' split
  all_goals simp

lemma rule2_len (d : ExtractedData) : (rule2 d).length ≤ 1 := by
  simp only [rule2]
  repeat' split
  all_goals simp

lemma rule3_len (d : ExtractedData) : (rule3 d).length ≤ 1 := by
  simp only [rule3]
  repeat' split
  all_goals simp

lemma rule4_len (d : ExtractedData) : (rule4 d).length ≤ 1 := by
  simp only [rule4]
  repeat' split
  all_goals simp [valuePassF, valueFailF, valueWarnF]

lemma rule5_len (d : ExtractedData) : (rule5 d).length ≤ 1 := by
  simp only [rule5]
  repeat' split
  all_goals simp

lemma rule6_len (d : ExtractedData) : (rule6 d).length ≤ 1 := by
  simp only [rule6]
  repeat' split
  all_goals simp

lemma rule7_len (d : ExtractedData) : (rule7 d).length ≤ 1 := by
  simp only [rule7]
  repeat' split
  all_goals simp

/-- Sub-item list of a finding (empty when the optional field is absent). -/
def subsOf (f : AuditResult) : List SubItem := f.subItems.getD []

lemma sicafSub_not_pending (sig : Date) (label : String) (od : Option Date) :
    (sicafSub sig label od).status ≠ CheckStatus.PENDING := by
  unfold sicafSub
  repeat' split
  all_goals simp

lemma rmm_fold_invariant (rmmMap nfMap : List (String × AggregatedItem))
    (acc : List SubItem × CheckStatus)
    (h2 : acc.2 ≠ CheckStatus.PENDING)
    (h1 : ∀ s ∈ acc.1, s.status ≠ CheckStatus.PENDING) :
    (nfMap.foldl (rmmStep rmmMap) acc).2 ≠ CheckStatus.PENDING
    ∧ ∀ s ∈ (nfMap.foldl (rmmStep rmmMap) acc).1,
        s.status ≠ CheckStatus.PENDING := by
  induction nfMap generalizing acc with
  | nil => exact ⟨h2, h1⟩
  | cons e rest ih =>
      rw [List.foldl_cons]
      have hstep2 : (rmmStep rmmMap acc e).2 ≠ CheckStatus.PENDING := by
        unfold rmmStep
        cases hm : findRmmMatch rmmMap e.1 e.2 with
        | none => simp [hm]
        | some r =>
            simp only [hm]
            split
            · exact h2
            · split <;> simp_all
      have hstep1 : ∀ s ∈ (rmmStep rmmMap acc e).1,
          s.status ≠ CheckStatus.PENDING := by
        unfold rmmStep
        cases hm : findRmmMatch rmmMap e.1 e.2 with
        | none =>
            simp only [hm]
            intro s hs
            rcases List.mem_append.mp hs with h | h
            · exact h1 s h
            · simp only [List.mem_singleton] at h
              subst h
              simp
        | some r =>
            simp only [hm]
            intro s hs
            split at hs
            all_goals
              rcases List.mem_append.mp hs with h | h
            all_goals first
              | exact h1 s h
              | (simp only [List.mem_singleton] at h
                 subst h
                 simp)
      exact ih (rmmStep rmmMap acc e) hstep2 hstep1

lemma rmmDetailed_np (d : ExtractedData) :
    (rmmDetailed d).status ≠ CheckStatus.PENDING
    ∧ ∀ s ∈ subsOf (rmmDetailed d), s.status ≠ CheckStatus.PENDING := by
  have hinv := rmm_fold_invariant (aggregateItems d.rmm.items)
    (aggregateItems d.notaFiscal.items) ([], CheckStatus.PASS)
    (by simp) (by simp)
  unfold rmmDetailed
  split
  · refine ⟨?_, ?_⟩
    · show (rmmScan (aggregateItems d.notaFiscal.items)
          (aggregateItems d.rmm.items)).2 ≠ CheckStatus.PENDING
      unfold rmmScan
      exact hinv.1
    · intro s hs
      have hs' : s ∈ (if (rmmScan (aggregateItems d.notaFiscal.items)
            (aggregateItems d.rmm.items)).1 ≠ []
          then some (rmmScan (aggregateItems d.notaFiscal.items)
            (aggregateItems d.rmm.items)).1
          else none).getD [] := hs
      split at hs'
      · simp only [Option.getD_some] at hs'
        unfold rmmScan at hs'
        exact hinv.2 s hs'
      · simp at hs'
  · refine ⟨by simp, ?_⟩
    intro s hs
    simp [subsOf] at hs

lemma rule0_np (d : ExtractedData) : ∀ f ∈ rule0 d,
    f.status ≠ CheckStatus.PENDING
    ∧ ∀ s ∈ subsOf f, s.status ≠ CheckStatus.PENDING := by
  intro f hf
  simp only [rule0] at hf
  repeat' split at hf
  all_goals simp_all [subsOf]

lemma rule1_np (d : ExtractedData) : ∀ f ∈ rule1 d,
    f.status ≠ CheckStatus.PENDING
    ∧ ∀ s ∈ subsOf f, s.status ≠ CheckStatus.PENDING := by
  intro f hf
  simp only [rule1] at hf
  split at hf
  · simp only [List.mem_singleton] at hf
    subst hf
    refine ⟨?_, ?_⟩
    · split <;> simp
    · intro s hs
      simp only [subsOf, Option.getD_some] at hs
      obtain ⟨c, _, rfl⟩ := List.mem_map.mp hs
      exact sicafSub_not_pending _ _ _
  · simp_all [sicafMissing, subsOf]

lemma rule2_np (d : ExtractedData) : ∀ f ∈ rule2 d,
    f.status ≠ CheckStatus.PENDING
    ∧ ∀ s ∈ subsOf f, s.status ≠ CheckStatus.PENDING := by
  intro f hf
  simp only [rule2] at hf
  repeat' split at hf
  all_goals simp_all [subsOf]

lemma rule3_np (d : ExtractedData) : ∀ f ∈ rule3 d,
    f.status ≠ CheckStatus.PENDING
    ∧ ∀ s ∈ subsOf f, s.status ≠ CheckStatus.PENDING := by
  intro f hf
  simp only [rule3] at hf
  repeat' split at hf
  all_goals simp_all [subsOf]

lemma rule4_np (d : ExtractedData) : ∀ f ∈ rule4 d,
    f.status ≠ CheckStatus.PENDING
    ∧ ∀ s ∈ subsOf f, s.status ≠ CheckStatus.PENDING := by
  intro f hf
  simp only [rule4] at hf
  repeat' split at hf
  all_goals simp_all [subsOf, valuePassF, valueFailF, valueWarnF]

lemma rule5_np (d : ExtractedData) : ∀ f ∈ rule5 d,
    f.status ≠ CheckStatus.PENDING
    ∧ ∀ s ∈ subsOf f, s.status ≠ CheckStatus.PENDING := by
  intro f hf
  simp only [rule5] at hf
  repeat' split at hf
  all_goals simp_all [subsOf]

lemma rule6_np (d : ExtractedData) : ∀ f ∈ rule6 d,
    f.status ≠ CheckStatus.PENDING
    ∧ ∀ s ∈ subsOf f, s.status ≠ CheckStatus.PENDING := by
  intro f hf
  simp only [rule6] at hf
  repeat' split at hf
  · simp only [List.mem_singleton] at hf
    subst hf
    exact rmmDetailed_np d
  all_goals simp_all [subsOf]

lemma rule7_np (d : ExtractedData) : ∀ f ∈ rule7 d,
    f.status ≠ CheckStatus.PENDING
    ∧ ∀ s ∈ subsOf f, s.status ≠ CheckStatus.PENDING := by
  intro f hf
  simp only [rule7] at hf
  repeat' split at hf
  all_goals simp_all [subsOf]

lemma rule0_idv (d : ExtractedData) :
    ∀ f ∈ rule0 d, f.id = "doc-validation-info-admin" := by
  intro f hf
  simp only [rule0] at hf
  repeat' split at hf
  all_goals simp_all

lemma rule1_idv (d : ExtractedData) :
    ∀ f ∈ rule1 d, f.id = "sicaf-detailed" ∨ f.id = "sicaf-missing" := by
  intro f hf
  simp only [rule1] at hf
  repeat' split at hf
  all_goals simp_all [sicafMissing]

lemma rule2_idv (d : ExtractedData) : ∀ f ∈ rule2 d, f.id = "cnpj-match" := by
  intro f hf
  simp only [rule2] at hf
  repeat' split at hf
  all_goals simp_all

lemma rule3_idv (d : ExtractedData) : ∀ f ∈ rule3 d, f.id = "tr-definitive" := by
  intro f hf
  simp only [rule3] at hf
  repeat' split at hf
  all_goals simp_all

lemma rule4_idv (d : ExtractedData) :
    ∀ f ∈ rule4 d, f.id = "value-check-gross" := by
  intro f hf
  simp only [rule4] at hf
  repeat' split at hf
  all_goals simp_all [valuePassF, valueFailF, valueWarnF]

lemma rule5_idv (d : ExtractedData) : ∀ f ∈ rule5 d, f.id = "contract-date" := by
  intro f hf
  simp only [rule5] at hf
  repeat' split at hf
  all_goals simp_all

lemma rule6_idv (d : ExtractedData) :
    ∀ f ∈ rule6 d, f.id = "rmm-check-detailed" ∨ f.id = "rmm-check" := by
  intro f hf
  simp only [rule6] at hf
  repeat' split at hf
  all_goals simp_all [rmmDetailed_id]

lemma rule7_idv (d : ExtractedData) :
    ∀ f ∈ rule7 d, f.id = "nd-consistency" := by
  intro f hf
  simp only [rule7] at hf
  repeat' split at hf
  all_goals simp_all

lemma filter_all_true (l : List AuditResult) (p : AuditResult → Bool)
    (h : ∀ f ∈ l, p f = true) : l.filter p = l :=
  List.filter_eq_self.mpr h

lemma filter_all_false (l : List AuditResult) (p : AuditResult → Bool)
    (h : ∀ f ∈ l, p f = false) : l.filter p = [] := by
  rw [List.filter_eq_nil_iff]
  intro a ha
  simp [h a ha]

lemma pairwise_len_le_one {R : AuditResult → AuditResult → Prop}
    {l : List AuditResult} (h : l.length ≤ 1) : l.Pairwise R := by
  match l with
  | [] => exact List.Pairwise.nil
  | [a] => simp
  | a :: b :: t => simp at h

lemma pairwise_step {l rest : List AuditResult} {i : Nat}
    (hid : ∀ f ∈ l, ruleIndex f.id = i)
    (hlen : l.length ≤ 1)
    (hrest : rest.Pairwise (fun a b => ruleIndex a.id < ruleIndex b.id))
    (hlo : ∀ f ∈ rest, i < ruleIndex f.id) :
    (l ++ rest).Pairwise (fun a b => ruleIndex a.id < ruleIndex b.id)
    ∧ ∀ f ∈ l ++ rest, i ≤ ruleIndex f.id := by
  constructor
  · rw [List.pairwise_append]
    refine ⟨pairwise_len_le_one hlen, hrest, ?_⟩
    intro a ha b hb
    rw [hid a ha]
    exact hlo b hb
  · intro f hf
    rcases List.mem_append.mp hf with h | h
    · exact Nat.le_of_eq (hid f h).symm
    · exact Nat.le_of_lt (hlo f h)

/-! Claim C8. -/

/-- C8: the findings of one evaluation appear in the fixed rule order — the
`ruleIndex` of the emitted ids (document guard 0, certificate check 1,
identifier consistency 2, receipt acceptance 3, value reconciliation 4,
contract year 5, stock entry 6, expense nature 7) is strictly increasing
along the output list, and every emitted finding carries one of those ids. -/
theorem C8_rule_order (d : ExtractedData) :
    (runAuditRules d).Pairwise (fun a b => ruleIndex a.id < ruleIndex b.id)
    ∧ ∀ f ∈ runAuditRules d, ruleIndex f.id ≤ 7 := by
  have h7 : (rule7 d).Pairwise (fun a b => ruleIndex a.id < ruleIndex b.id)
      ∧ ∀ f ∈ rule7 d, 7 ≤ ruleIndex f.id :=
    ⟨pairwise_len_le_one (rule7_len d),
     fun f hf => Nat.le_of_eq (rule7_ids d f hf).symm⟩
  have h6 := pairwise_step (rule6_ids d) (rule6_len d) h7.1
    (fun f hf => Nat.lt_of_lt_of_le (by omega) (h7.2 f hf))
  have h5 := pairwise_step (rule5_ids d) (rule5_len d) h6.1
    (fun f hf => Nat.lt_of_lt_of_le (by omega) (h6.2 f hf))
  have h4 := pairwise_step (rule4_ids d) (rule4_len d) h5.1
    (fun f hf => Nat.lt_of_lt_of_le (by omega) (h5.2 f hf))
  have h3 := pairwise_step (rule3_ids d) (rule3_len d) h4.1
    (fun f hf => Nat.lt_of_lt_of_le (by omega) (h4.2 f hf))
  have h2 := pairwise_step (rule2_ids d) (rule2_len d) h3.1
    (fun f hf => Nat.lt_of_lt_of_le (by omega) (h3.2 f hf))
  have h1 := pairwise_step (rule1_ids d) (rule1_len d) h2.1
    (fun f hf => Nat.lt_of_lt_of_le (by omega) (h2.2 f hf))
  have h0 := pairwise_step (rule0_ids d) (rule0_len d) h1.1
    (fun f hf => Nat.lt_of_lt_of_le (by omega) (h1.2 f hf))
  constructor
  · have hp := h0.1
    simp only [runAuditRules]
    simpa [List.append_assoc] using hp
  · intro f hf
    simp only [runAuditRules, List.mem_append, or_assoc] at hf
    rcases hf with h | h | h | h | h | h | h | h
    · have := rule0_ids d f h
      omega
    · have := rule1_ids d f h
      omega
    · have := rule2_ids d f h
      omega
    · have := rule3_ids d f h
      omega
    · have := rule4_ids d f h
      omega
    · have := rule5_ids d f h
      omega
    · have := rule6_ids d f h
      omega
    · have := rule7_ids d f h
      omega

/-! Claim C10. -/

/-- C10: no finding and no sub-finding emitted by the engine ever carries the
status PENDING, even though PENDING is a declared member of `CheckStatus` and
the certificate sub-check initializes its working status to PENDING: every
emitted status is PASS, WARNING or FAIL. -/
theorem C10_no_pending (d : ExtractedData) :
    ∀ f ∈ runAuditRules d, f.status ≠ CheckStatus.PENDING
      ∧ ∀ s ∈ subsOf f, s.status ≠ CheckStatus.PENDING := by
  intro f hf
  simp only [runAuditRules, List.mem_append, or_assoc] at hf
  rcases hf with h | h | h | h | h | h | h | h
  · exact rule0_np d f h
  · exact rule1_np d f h
  · exact rule2_np d f h
  · exact rule3_np d f h
  · exact rule4_np d f h
  · exact rule5_np d f h
  · exact rule6_np d f h
  · exact rule7_np d f h

/-- Witness for C1 at a concrete input: two invoice line items with the same
part number and quantities 3 and 2 aggregate to one group of quantity 5,
whose description is the longer of the two. -/
theorem C1_aggregation_witness :
    (aggregateItems [⟨"Item A", some "PN123", 3, none⟩,
        ⟨"Item A plus", some "PN123", 2, none⟩]).lookup "pn123"
      = some ⟨5, "Item A plus", some "PN123", 2⟩
    ∧ (⟨5, "Item A plus", some "PN123", 2⟩ : AggregatedItem).totalQty
        = ((([⟨"Item A", some "PN123", 3, none⟩,
              ⟨"Item A plus", some "PN123", 2, none⟩] : List LineItem).filter
              (fun it => itemKey it = "pn123")).map (fun it => it.quantity)).sum
    ∧ (5 : ℚ) = 3 + 2 := by
  have hk1 : itemKey (⟨"Item A", some "PN123", 3, none⟩ : LineItem) = "pn123" := by
    decide
  have hk2 : itemKey (⟨"Item A plus", some "PN123", 2, none⟩ : LineItem) = "pn123" := by
    decide
  have hd : "Item A".length < "Item A plus".length := by decide
  have hlook : (aggregateItems [⟨"Item A", some "PN123", 3, none⟩,
      ⟨"Item A plus", some "PN123", 2, none⟩]).lookup "pn123"
      = some ⟨5, "Item A plus", some "PN123", 2⟩ := by
    norm_num [aggregateItems, insertItem, updateAt, updEntry, List.lookup,
      hk1, hk2, hd]
  exact ⟨hlook, ((C1_aggregation _ "pn123").2 _ hlook).1, by norm_num⟩

/-- Witness for C8 at a concrete bundle: the all-absent bundle emits exactly
the fallback certificate finding, which carries a listed id. -/
theorem C8_rule_order_witness :
    sicafMissing ∈ runAuditRules baseData ∧ ruleIndex sicafMissing.id ≤ 7 :=
  ⟨by decide, (C8_rule_order baseData).2 sicafMissing (by decide)⟩

/-- Witness for C10 at a concrete bundle: the finding emitted on the
all-absent bundle is not PENDING. -/
theorem C10_no_pending_witness :
    sicafMissing.status ≠ CheckStatus.PENDING :=
  (C10_no_pending baseData sicafMissing (by decide)).1

/-! Filter lemmas: each rule id occurs in exactly one rule block, so
filtering the whole output by an id isolates that block's findings. -/

lemma filter_value_eq_rule4 (d : ExtractedData) :
    (runAuditRules d).filter (fun f => f.id == "value-check-gross")
      = rule4 d := by
  simp only [runAuditRules, List.filter_append]
  rw [filter_all_false _ _ (fun f hf => by simp [rule0_idv d f hf]),
      filter_all_false _ _ (fun f hf => by
        rcases rule1_idv d f hf with h | h <;> simp [h]),
      filter_all_false _ _ (fun f hf => by simp [rule2_idv d f hf]),
      filter_all_false _ _ (fun f hf => by simp [rule3_idv d f hf]),
      filter_all_true _ _ (fun f hf => by simp [rule4_idv d f hf]),
      filter_all_false _ _ (fun f hf => by simp [rule5_idv d f hf]),
      filter_all_false _ _ (fun f hf => by
        rcases rule6_idv d f hf with h | h <;> simp [h]),
      filter_all_false _ _ (fun f hf => by simp [rule7_idv d f hf])]
  simp

lemma filter_sicaf_eq_rule1 (d : ExtractedData) :
    (runAuditRules d).filter
        (fun f => f.id == "sicaf-detailed" || f.id == "sicaf-missing")
      = rule1 d := by
  simp only [runAuditRules, List.filter_append]
  rw [filter_all_false _ _ (fun f hf => by simp [rule0_idv d f hf]),
      filter_all_true _ _ (fun f hf => by
        rcases rule1_idv d f hf with h | h <;> simp [h]),
      filter_all_false _ _ (fun f hf => by simp [rule2_idv d f hf]),
      filter_all_false _ _ (fun f hf => by simp [rule3_idv d f hf]),
      filter_all_false _ _ (fun f hf => by simp [rule4_idv d f hf]),
      filter_all_false _ _ (fun f hf => by simp [rule5_idv d f hf]),
      filter_all_false _ _ (fun f hf => by
        rcases rule6_idv d f hf with h | h <;> simp [h]),
      filter_all_false _ _ (fun f hf => by simp [rule7_idv d f hf])]
  simp

lemma filter_cnpj_eq_rule2 (d : ExtractedData) :
    (runAuditRules d).filter (fun f => f.id == "cnpj-match") = rule2 d := by
  simp only [runAuditRules, List.filter_append]
  rw [filter_all_false _ _ (fun f hf => by simp [rule0_idv d f hf]),
      filter_all_false _ _ (fun f hf => by
        rcases rule1_idv d f hf with h | h <;> simp [h]),
      filter_all_true _ _ (fun f hf => by simp [rule2_idv d f hf]),
      filter_all_false _ _ (fun f hf => by simp [rule3_idv d f hf]),
      filter_all_false _ _ (fun f hf => by simp [rule4_idv d f hf]),
      filter_all_false _ _ (fun f hf => by simp [rule5_idv d f hf]),
      filter_all_false _ _ (fun f hf => by
        rcases rule6_idv d f hf with h | h <;> simp [h]),
      filter_all_false _ _ (fun f hf => by simp [rule7_idv d f hf])]
  simp

lemma filter_nd_eq_rule7 (d : ExtractedData) :
    (runAuditRules d).filter (fun f => f.id == "nd-consistency")
      = rule7 d := by
  simp only [runAuditRules, List.filter_append]
  rw [filter_all_false _ _ (fun f hf => by simp [rule0_idv d f hf]),
      filter_all_false _ _ (fun f hf => by
        rcases rule1_idv d f hf with h | h <;> simp [h]),
      filter_all_false _ _ (fun f hf => by simp [rule2_idv d f hf]),
      filter_all_false _ _ (fun f hf => by simp [rule3_idv d f hf]),
      filter_all_false _ _ (fun f hf => by simp [rule4_idv d f hf]),
      filter_all_false _ _ (fun f hf => by simp [rule5_idv d f hf]),
      filter_all_false _ _ (fun f hf => by
        rcases rule6_idv d f hf with h | h <;> simp [h]),
      filter_all_true _ _ (fun f hf => by simp [rule7_idv d f hf])]
  simp

lemma filter_rmmdet_eq_rule6 (d : ExtractedData) :
    (runAuditRules d).filter (fun f => f.id == "rmm-check-detailed")
      = (rule6 d).filter (fun f => f.id == "rmm-check-detailed") := by
  simp only [runAuditRules, List.filter_append]
  rw [filter_all_false (rule0 d) _ (fun f hf => by simp [rule0_idv d f hf]),
      filter_all_false (rule1 d) _ (fun f hf => by
        rcases rule1_idv d f hf with h | h <;> simp [h]),
      filter_all_false (rule2 d) _ (fun f hf => by simp [rule2_idv d f hf]),
      filter_all_false (rule3 d) _ (fun f hf => by simp [rule3_idv d f hf]),
      filter_all_false (rule4 d) _ (fun f hf => by simp [rule4_idv d f hf]),
      filter_all_false (rule5 d) _ (fun f hf => by simp [rule5_idv d f hf]),
      filter_all_false (rule7 d) _ (fun f hf => by simp [rule7_idv d f hf])]
  simp

/-! Claim C3. -/

/-- C3: when invoice and receipt are found with non-null gross and total
values, exactly one finding with id value-check-gross is emitted, whose
status is PASS when the absolute difference is strictly below 0.05, FAIL
with the filled-with-net-amount message when instead the liquid value is
non-null and within 0.05 of the total, and WARNING otherwise; the 0.05
boundary is exclusive. -/
theorem C3_value_check (d : ExtractedData) (g t : ℚ)
    (hnf : d.notaFiscal.found = true) (htr : d.termoRecebimento.found = true)
    (hg : d.notaFiscal.grossValue = some g)
    (ht : d.termoRecebimento.totalValue = some t) :
    ∃ f, (runAuditRules d).filter (fun r => r.id == "value-check-gross") = [f]
      ∧ f.status = (if |g - t| < 5/100 then CheckStatus.PASS
          else match d.notaFiscal.liquidValue with
            | some l => if |l - t| < 5/100 then CheckStatus.FAIL
                else CheckStatus.WARNING
            | none => CheckStatus.WARNING)
      ∧ (f.status = CheckStatus.FAIL →
          f.details = some ("ERRO CRÍTICO: O Termo de Recebimento está preenchido com o Valor Líquido ("
            ++ fmtCurrency t ++ "). Deveria ser o Valor Bruto ("
            ++ fmtCurrency g ++ ").")) := by
  rw [filter_value_eq_rule4]
  unfold rule4
  simp only [hnf, htr, hg, ht]
  by_cases h1 : |g - t| < 5/100
  · exact ⟨valuePassF g t, by simp [h1], by simp [h1, valuePassF],
      by simp [valuePassF]⟩
  · cases hl : d.notaFiscal.liquidValue with
    | some l =>
        by_cases h2 : |l - t| < 5/100
        · exact ⟨valueFailF g t, by simp [h1, hl, h2],
            by simp [h1, hl, h2, valueFailF], by simp [valueFailF]⟩
        · exact ⟨valueWarnF g t, by simp [h1, hl, h2],
            by simp [h1, hl, h2, valueWarnF], by simp [valueWarnF]⟩
    | none =>
        exact ⟨valueWarnF g t, by simp [h1, hl],
          by simp [h1, hl, valueWarnF], by simp [valueWarnF]⟩

/-! Claim C4. -/

/-- C4: when the certificate record, the receipt record and the signature
date are all present, one sicaf-detailed finding is emitted with exactly the
5 sub-findings in fixed certificate order, each FAIL when its validity date
is absent or strictly before the signature date and PASS otherwise, the
overall status FAIL exactly when some sub-finding is FAIL, and a
recommendation present exactly in that case; when a precondition is missing
a single WARNING finding with id sicaf-missing is emitted instead. -/
theorem C4_sicaf (d : ExtractedData) :
    (∀ sig, d.sicaf.found = true → d.termoRecebimento.found = true →
      d.termoRecebimento.signatureDate = some sig →
      ∃ f l, (runAuditRules d).filter
          (fun r => r.id == "sicaf-detailed" || r.id == "sicaf-missing") = [f]
        ∧ f.id = "sicaf-detailed"
        ∧ f.subItems = some l
        ∧ l.map (fun s => s.label)
            = ["Receita Federal e PGFN", "FGTS", "Trabalhista",
               "Estadual/Distrital", "Municipal"]
        ∧ l.map (fun s => s.status)
            = (certChecks d).map (fun c =>
                match c.2 with
                | none => CheckStatus.FAIL
                | some cd => if Date.leb sig cd then CheckStatus.PASS
                    else CheckStatus.FAIL)
        ∧ f.status = (if l.any (fun s => s.status == CheckStatus.FAIL)
            then CheckStatus.FAIL else CheckStatus.PASS)
        ∧ (f.recommendation.isSome ↔ f.status = CheckStatus.FAIL))
    ∧ (¬(d.sicaf.found = true ∧ d.termoRecebimento.found = true
          ∧ d.termoRecebimento.signatureDate.isSome = true) →
        (runAuditRules d).filter
            (fun r => r.id == "sicaf-detailed" || r.id == "sicaf-missing")
          = [sicafMissing]
        ∧ sicafMissing.id = "sicaf-missing"
        ∧ sicafMissing.status = CheckStatus.WARNING) := by
  have hlab : ∀ sig lb od, (sicafSub sig lb od).label = lb := by
    intro sig lb od
    unfold sicafSub
    repeat' split
    all_goals rfl
  have hstat : ∀ sig lb od, (sicafSub sig lb od).status
      = (match od with
         | none => CheckStatus.FAIL
         | some cd => if Date.leb sig cd then CheckStatus.PASS
             else CheckStatus.FAIL) := by
    intro sig lb od
    unfold sicafSub
    repeat' split
    all_goals simp_all
  rw [filter_sicaf_eq_rule1]
  constructor
  · intro sig hs htr hsig
    unfold rule1
    simp only [hs, htr, hsig]
    refine ⟨_, (certChecks d).map (fun c => sicafSub sig c.1 c.2),
      rfl, rfl, rfl, ?_, ?_, ?_, ?_⟩
    · simp only [List.map_map]
      simp [certChecks, Function.comp, hlab]
    · simp only [List.map_map]
      apply List.map_congr_left
      intro c _
      simp [Function.comp, hstat]
    · simp
    · dsimp only
      split <;> simp
  · intro hmiss
    unfold rule1
    refine ⟨?_, rfl, rfl⟩
    split
    · rename_i hs htr hsig
      exact absurd ⟨by assumption, by assumption, by simp_all⟩ hmiss
    · rfl

/-- Bundle for the C3 witness: gross 1000, receipt total 999.95 — the
difference is exactly the 0.05 tolerance. -/
def dBoundary : ExtractedData :=
  { baseData with
    notaFiscal := { baseData.notaFiscal with
      found := true, grossValue := some 1000 }
    termoRecebimento := { baseData.termoRecebimento with
      found := true, totalValue := some (19999/20) } }

/-- Bundle for the C3 witness: gross 1000, receipt total 999.950001 — the
difference 0.049999 is strictly inside the tolerance. -/
def dInside : ExtractedData :=
  { baseData with
    notaFiscal := { baseData.notaFiscal with
      found := true, grossValue := some 1000 }
    termoRecebimento := { baseData.termoRecebimento with
      found := true, totalValue := some (999950001/1000000) } }

/-- Witness for C3: a difference of exactly 0.05 is not a match (WARNING,
since no liquid value is present), while 0.049999 is a match (PASS). -/
theorem C3_value_check_witness :
    (∃ f, (runAuditRules dBoundary).filter
        (fun r => r.id == "value-check-gross") = [f]
      ∧ f.status = CheckStatus.WARNING)
    ∧ (∃ f, (runAuditRules dInside).filter
        (fun r => r.id == "value-check-gross") = [f]
      ∧ f.status = CheckStatus.PASS) := by
  constructor
  · obtain ⟨f, hf, hs, _⟩ := C3_value_check dBoundary 1000 (19999/20)
      rfl rfl rfl rfl
    refine ⟨f, hf, ?_⟩
    rw [hs, if_neg (by norm_num [abs_lt])]
    rfl
  · obtain ⟨f, hf, hs, _⟩ := C3_value_check dInside 1000 (999950001/1000000)
      rfl rfl rfl rfl
    refine ⟨f, hf, ?_⟩
    rw [hs, if_pos (by norm_num [abs_lt])]

/-- Bundle for the C4 witness: all certificates valid on the signature date
except the labor-debt one, which expired earlier. -/
def dSicafB : ExtractedData :=
  { baseData with
    sicaf := ⟨true, none,
      ⟨some ⟨2025, 1, 1⟩, some ⟨2025, 1, 1⟩, some ⟨2024, 5, 1⟩,
       some ⟨2025, 1, 1⟩, some ⟨2025, 1, 1⟩⟩⟩
    termoRecebimento := { baseData.termoRecebimento with
      found := true, signatureDate := some ⟨2024, 6, 10⟩ } }

/-- Witness for C4: with one expired certificate the detailed finding has
exactly one FAIL sub-finding (the third, Trabalhista) and overall FAIL. -/
theorem C4_sicaf_witness :
    ∃ f l, (runAuditRules dSicafB).filter
        (fun r => r.id == "sicaf-detailed" || r.id == "sicaf-missing") = [f]
    ∧ f.subItems = some l
    ∧ l.map (fun s => s.status)
        = [CheckStatus.PASS, CheckStatus.PASS, CheckStatus.FAIL,
           CheckStatus.PASS, CheckStatus.PASS]
    ∧ f.status = CheckStatus.FAIL := by
  obtain ⟨f, l, hfil, hid, hsub, hlabs, hstats, hover, hrec⟩ :=
    (C4_sicaf dSicafB).1 ⟨2024, 6, 10⟩ rfl rfl rfl
  have hmap : l.map (fun s => s.status)
      = [CheckStatus.PASS, CheckStatus.PASS, CheckStatus.FAIL,
         CheckStatus.PASS, CheckStatus.PASS] := by
    rw [hstats]
    decide
  refine ⟨f, l, hfil, hsub, hmap, ?_⟩
  have hany : (l.any fun s => s.status == CheckStatus.FAIL) = true := by
    have hmem : CheckStatus.FAIL ∈ l.map (fun s => s.status) := by
      rw [hmap]
      decide
    obtain ⟨s, hs1, hs2⟩ := List.mem_map.mp hmem
    rw [List.any_eq_true]
    exact ⟨s, hs1, by simp [hs2]⟩
  rw [hover]
  simp [hany]

/-! Claim C6. -/

/-- C6: when the billing report is found with a service-coded commitment, the
invoice is material, and the administrative note is found with neither the
wrong-document flag nor the explicit service-justification flag set, the
expense-nature rule still emits a PASS finding (presumed justified by the
mere presence of the note) rather than a WARNING. -/
theorem C6_nd_presumed (d : ExtractedData)
    (hrf : d.relatorioFatura.found = true)
    (hserv : d.relatorioFatura.empenhos.filter
        (fun e => strIncludes e.nd "339039") ≠ [])
    (hmat : d.notaFiscal.isMaterial = true)
    (hia : d.informacaoAdministrativa.found = true)
    (hwrong : d.informacaoAdministrativa.wrongDocumentDetected = false)
    (hjust : d.informacaoAdministrativa.justifiesServiceND = false) :
    (runAuditRules d).filter (fun r => r.id == "nd-consistency")
      = [{ id := "nd-consistency"
           title := "Natureza de Despesa (ND)"
           description := "Compatibilidade da ND com o objeto da NF."
           status := CheckStatus.PASS
           details := some "Nota com materiais usando ND de Serviço. Informação Administrativa presente (presume-se justificativa)." }] := by
  have hne : d.relatorioFatura.empenhos ≠ [] := by
    intro h
    rw [h] at hserv
    simp at hserv
  have hlen : 0 < d.relatorioFatura.empenhos.length := List.length_pos.mpr hne
  have hlen2 : 0 < (d.relatorioFatura.empenhos.filter
      (fun e => strIncludes e.nd "339039")).length := List.length_pos.mpr hserv
  rw [filter_nd_eq_rule7]
  unfold rule7
  simp [hrf, hmat, hia, hwrong, hjust, hlen, hlen2]

/-- Bundle for the C6 witness: one service-coded commitment, material
invoice, administrative note present without the justification flag. -/
def dNd : ExtractedData :=
  { baseData with
    relatorioFatura := ⟨true, none, none, none, none,
      [⟨"2024NE000001", "339039", 100⟩]⟩
    notaFiscal := { baseData.notaFiscal with found := true, isMaterial := true }
    informacaoAdministrativa := ⟨true, false, false, none, false⟩ }

/-- Witness for C6 at the concrete bundle. -/
theorem C6_nd_presumed_witness :
    (runAuditRules dNd).filter (fun r => r.id == "nd-consistency")
      = [{ id := "nd-consistency"
           title := "Natureza de Despesa (ND)"
           description := "Compatibilidade da ND com o objeto da NF."
           status := CheckStatus.PASS
           details := some "Nota com materiais usando ND de Serviço. Informação Administrativa presente (presume-se justificativa)." }] :=
  C6_nd_presumed dNd rfl (by decide) rfl rfl rfl rfl

/-! Claim C5 (corrected).  As stated, the claim says the single-value case
emits a PASS finding naming the shared value; when only the certificate
record carries an identifier, the code emits a PASS finding whose details
name no identifier at all (they render the JS null).  The identifier used in
the PASS details is the invoice raw identifier when truthy, otherwise the
receipt one, otherwise the text null. -/

lemma mem_setInsert (l : List String) (y x : String) :
    x ∈ setInsert l y ↔ x ∈ l ∨ x = y := by
  unfold setInsert
  split
  · rename_i hc
    have hy : y ∈ l := by simpa using hc
    constructor
    · exact Or.inl
    · rintro (hx | rfl)
      · exact hx
      · exact hy
  · simp [List.mem_append]

lemma nodup_setInsert (l : List String) (y : String) (h : l.Nodup) :
    (setInsert l y).Nodup := by
  unfold setInsert
  split
  · exact h
  · rename_i hc
    have hy : y ∉ l := by simpa using hc
    simp [List.nodup_append, h, hy]

lemma cnpjAcc_nodup (d : ExtractedData) : (cnpjAcc d).1.Nodup := by
  unfold cnpjAcc
  simp only [List.foldl_cons, List.foldl_nil]
  by_cases h1 : strTruthy d.notaFiscal.cnpj = true <;>
    by_cases h2 : strTruthy d.termoRecebimento.cnpj = true <;>
      by_cases h3 : strTruthy d.sicaf.cnpj = true <;>
        simp only [h1, h2, h3, Bool.false_eq_true, if_true, if_false] <;>
          (repeat first
            | exact List.nodup_nil
            | apply nodup_setInsert)

lemma cnpjAcc_mem (d : ExtractedData) (x : String) :
    x ∈ (cnpjAcc d).1 ↔
      x ∈ ([("NF", d.notaFiscal.cnpj), ("Termo", d.termoRecebimento.cnpj),
            ("SICAF", d.sicaf.cnpj)].filterMap
        (fun src => if strTruthy src.2 then some (normDigits (src.2.getD ""))
          else none)) := by
  unfold cnpjAcc
  simp only [List.foldl_cons, List.foldl_nil]
  by_cases h1 : strTruthy d.notaFiscal.cnpj = true <;>
    by_cases h2 : strTruthy d.termoRecebimento.cnpj = true <;>
      by_cases h3 : strTruthy d.sicaf.cnpj = true <;>
        simp [h1, h2, h3, mem_setInsert, List.filterMap_cons] <;> tauto

/-- C5 (amended): the identifier checker inserts the digit-normalized form
of each truthy raw identifier (invoice, receipt, certificate in that order)
into a duplicate-free insertion-ordered set; with more than one distinct
value it emits one FAIL finding listing every truthy source with its raw
value, with exactly one value it emits one PASS finding whose details name
the invoice raw identifier when truthy, else the receipt one, else the text
null, and with no value it emits no finding. -/
theorem C5_cnpj (d : ExtractedData) :
    ((cnpjAcc d).1.length > 1 →
      (runAuditRules d).filter (fun r => r.id == "cnpj-match")
        = [{ id := "cnpj-match"
             title := "Consistência de CNPJ"
             description := "O CNPJ deve ser o mesmo em todos os documentos."
             status := CheckStatus.FAIL
             details := some ("Divergência encontrada:\n"
               ++ String.intercalate "\n" (cnpjAcc d).2)
             recommendation := some "Verificar se os documentos pertencem ao mesmo processo." }])
    ∧ ((cnpjAcc d).1.length = 1 →
      (runAuditRules d).filter (fun r => r.id == "cnpj-match")
        = [{ id := "cnpj-match"
             title := "Consistência de CNPJ"
             description := "Verificação do fornecedor nos documentos."
             status := CheckStatus.PASS
             details := some ("CNPJ "
               ++ jsOrShow d.notaFiscal.cnpj d.termoRecebimento.cnpj
               ++ " consistente em todos os documentos.") }])
    ∧ ((cnpjAcc d).1.length = 0 →
      (runAuditRules d).filter (fun r => r.id == "cnpj-match") = [])
    ∧ (cnpjAcc d).1.Nodup
    ∧ (∀ x, x ∈ (cnpjAcc d).1 ↔
        x ∈ ([("NF", d.notaFiscal.cnpj), ("Termo", d.termoRecebimento.cnpj),
              ("SICAF", d.sicaf.cnpj)].filterMap
          (fun src => if strTruthy src.2 then some (normDigits (src.2.getD ""))
            else none))) := by
  refine ⟨?_, ?_, ?_, cnpjAcc_nodup d, fun x => cnpjAcc_mem d x⟩
  all_goals
    intro h
    rw [filter_cnpj_eq_rule2]
    unfold rule2
    simp [h]

/-- Bundle for the C5 counterexample: only the certificate record carries an
identifier. -/
def dOnlySicaf : ExtractedData :=
  { baseData with
    sicaf := ⟨false, some "12.345.678/0001-99", ⟨none, none, none, none, none⟩⟩ }

/-- Counterexample for C5 as stated: with exactly one distinct identifier
(held by the certificate record alone) the emitted PASS finding names no
identifier — its details render the JS null, and neither the normalized nor
the raw identifier occurs in them. -/
theorem C5_counterexample :
    (runAuditRules dOnlySicaf).filter (fun r => r.id == "cnpj-match")
      = [{ id := "cnpj-match"
           title := "Consistência de CNPJ"
           description := "Verificação do fornecedor nos documentos."
           status := CheckStatus.PASS
           details := some "CNPJ null consistente em todos os documentos." }]
    ∧ (cnpjAcc dOnlySicaf).1 = ["12345678000199"]
    ∧ strIncludes "CNPJ null consistente em todos os documentos."
        "12345678000199" = false
    ∧ strIncludes "CNPJ null consistente em todos os documentos."
        "12.345.678/0001-99" = false := by
  refine ⟨?_, by decide, by decide, by decide⟩
  rw [filter_cnpj_eq_rule2]
  decide

/-- Bundle for the C5 witness: the invoice and certificate identifiers
differ only by punctuation. -/
def dPunct : ExtractedData :=
  { baseData with
    notaFiscal := { baseData.notaFiscal with
      found := true, cnpj := some "12.345.678/0001-99" }
    sicaf := ⟨false, some "12345678000199", ⟨none, none, none, none, none⟩⟩ }

/-- Witness for C5: identifiers differing only by punctuation normalize to
one set value, so the checker emits the PASS finding naming the invoice raw
identifier. -/
theorem C5_cnpj_witness :
    (runAuditRules dPunct).filter (fun r => r.id == "cnpj-match")
      = [{ id := "cnpj-match"
           title := "Consistência de CNPJ"
           description := "Verificação do fornecedor nos documentos."
           status := CheckStatus.PASS
           details := some "CNPJ 12.345.678/0001-99 consistente em todos os documentos." }] := by
  have h := (C5_cnpj dPunct).2.1 (by decide)
  rw [h]
  decide

/-! Claim C2 (corrected).  As stated, the claim says the fuzzy fallback is
attempted whenever the exact key lookup misses; in the code the fallback is
guarded by the group's recorded part number being truthy (the comment reads
"try fuzzy description match if we relied on PN"), so a group without part
number whose exact lookup misses is reported unmatched even when a fuzzy
description match exists. -/

/-- Modelled from the words of claim C2: the fuzzy fallback attempted on
every exact-lookup miss, with no part-number gate.  Used only to compare the
claim against the code. -/
def findRmmMatchClaim (rmmMap : List (String × AggregatedItem)) (key : String)
    (nfItem : AggregatedItem) : Option AggregatedItem :=
  match rmmMap.lookup key with
  | some r => some r
  | none => fuzzyFind (fuzzyTokens nfItem.description) rmmMap

lemma find_first {α : Type} (p : α → Bool) (l : List α) (a : α)
    (h : l.find? p = some a) :
    ∃ l₁ l₂, l = l₁ ++ a :: l₂ ∧ p a = true ∧ ∀ x ∈ l₁, p x = false := by
  induction l with
  | nil => simp at h
  | cons hd tl ih =>
      by_cases hp : p hd = true
      · rw [List.find?_cons_of_pos _ hp] at h
        injection h with h
        subst h
        exact ⟨[], tl, rfl, hp, by simp⟩
      · rw [List.find?_cons_of_neg _ (by simpa using hp)] at h
        obtain ⟨l₁, l₂, hsplit, hpa, hprev⟩ := ih h
        refine ⟨hd :: l₁, l₂, by rw [hsplit]; rfl, hpa, ?_⟩
        intro x hx
        rcases List.mem_cons.mp hx with rfl | hx
        · simpa using hp
        · exact hprev x hx

/-- C2 (amended): for every aggregated invoice group, the engine first looks
the group's key up in the stock-entry map and, on an exact hit, uses it (the
fuzzy fallback never fires when an exact key match exists); on a miss the
fuzzy fallback is attempted only when the group's recorded part number is
truthy, and it accepts the first stock-entry group whose lower-cased
description contains one of the group's lower-cased longer-than-3-character
tokens as a substring; on a miss without part number the group is
unmatched. -/
theorem C2_matching (rmmMap : List (String × AggregatedItem)) (key : String)
    (nfItem : AggregatedItem) :
    (∀ r, rmmMap.lookup key = some r →
        findRmmMatch rmmMap key nfItem = some r)
    ∧ (rmmMap.lookup key = none → strTruthy nfItem.partNumber = false →
        findRmmMatch rmmMap key nfItem = none)
    ∧ (rmmMap.lookup key = none → strTruthy nfItem.partNumber = true →
        findRmmMatch rmmMap key nfItem
          = fuzzyFind (fuzzyTokens nfItem.description) rmmMap)
    ∧ (∀ r, fuzzyFind (fuzzyTokens nfItem.description) rmmMap = some r →
        ∃ l₁ l₂, rmmMap.map Prod.snd = l₁ ++ r :: l₂
          ∧ (fuzzyTokens nfItem.description).any
              (fun t => strIncludes (toLowerStr r.description) t) = true
          ∧ ∀ x ∈ l₁, (fuzzyTokens nfItem.description).any
              (fun t => strIncludes (toLowerStr x.description) t) = false) := by
  refine ⟨?_, ?_, ?_, ?_⟩
  · intro r h
    unfold findRmmMatch
    rw [h]
  · intro h hpn
    unfold findRmmMatch
    rw [h, hpn]
    simp
  · intro h hpn
    unfold findRmmMatch
    rw [h, hpn]
    simp
  · intro r h
    unfold fuzzyFind at h
    exact find_first _ _ _ h

/-- Witness for C2 at concrete inputs: with a truthy part number and an
exact-lookup miss the code result is exactly the fuzzy fallback result,
which here accepts the only stock-entry group. -/
theorem C2_matching_witness :
    findRmmMatch [("xyz9", ⟨1, "parafuso grande azul", some "XYZ9", 1⟩)]
        "pn9big" ⟨1, "parafuso grande", some "PN9big", 1⟩
      = fuzzyFind (fuzzyTokens "parafuso grande")
          [("xyz9", ⟨1, "parafuso grande azul", some "XYZ9", 1⟩)]
    ∧ fuzzyFind (fuzzyTokens "parafuso grande")
          [("xyz9", ⟨1, "parafuso grande azul", some "XYZ9", 1⟩)]
        = some ⟨1, "parafuso grande azul", some "XYZ9", 1⟩ :=
  ⟨(C2_matching [("xyz9", ⟨1, "parafuso grande azul", some "XYZ9", 1⟩)]
      "pn9big" ⟨1, "parafuso grande", some "PN9big", 1⟩).2.2.1
    (by decide) (by decide),
   by decide⟩

/-- Bundle for the C2 counterexample: a material invoice whose one item has
no part number, and a stock-entry item that would match fuzzily. -/
def dNoPn : ExtractedData :=
  { baseData with
    notaFiscal := { baseData.notaFiscal with
      found := true, isMaterial := true
      items := [⟨"parafuso grande", none, 1, none⟩] }
    rmm := ⟨true, [⟨"parafuso grande azul", some "XYZ9", 1, none⟩]⟩ }

/-- Counterexample for C2 as stated: the invoice group has no part number,
its exact lookup misses, a fuzzy description match exists (the claim-side
matcher finds it), yet the code matcher returns none and the engine reports
the item as not found in the stock-entry report. -/
theorem C2_counterexample :
    findRmmMatch (aggregateItems dNoPn.rmm.items) "parafusogrande"
        ⟨1, "parafuso grande", none, 1⟩ = none
    ∧ findRmmMatchClaim (aggregateItems dNoPn.rmm.items) "parafusogrande"
        ⟨1, "parafuso grande", none, 1⟩
        = some ⟨1, "parafuso grande azul", some "XYZ9", 1⟩
    ∧ (aggregateItems dNoPn.notaFiscal.items).lookup "parafusogrande"
        = some ⟨1, "parafuso grande", none, 1⟩
    ∧ (runAuditRules dNoPn).filter (fun r => r.id == "rmm-check-detailed")
        = [{ id := "rmm-check-detailed"
             title := "Conferência Detalhada: NF vs RMM"
             description := "Comparação item a item (agrupada por PN) entre Nota Fiscal e Relação de Materiais."
             status := CheckStatus.FAIL
             details := some "Alguns itens da Nota Fiscal não foram encontrados no RMM."
             subItems := some [⟨"S/N - parafuso grande...", CheckStatus.FAIL,
               "Item não encontrado no RMM"⟩] }] := by
  have hkr : itemKey (⟨"parafuso grande azul", some "XYZ9", 1, none⟩ : LineItem)
      = "xyz9" := by decide
  have hkn : itemKey (⟨"parafuso grande", none, 1, none⟩ : LineItem)
      = "parafusogrande" := by decide
  have hrmm : aggregateItems dNoPn.rmm.items
      = [("xyz9", ⟨1, "parafuso grande azul", some "XYZ9", 1⟩)] := by
    norm_num [aggregateItems, insertItem, updateAt, updEntry, List.lookup,
      hkr, dNoPn, baseData]
  have hnf : aggregateItems dNoPn.notaFiscal.items
      = [("parafusogrande", ⟨1, "parafuso grande", none, 1⟩)] := by
    norm_num [aggregateItems, insertItem, updateAt, updEntry, List.lookup,
      hkn, dNoPn, baseData]
  refine ⟨?_, ?_, ?_, ?_⟩
  · rw [hrmm]
    decide
  · rw [hrmm]
    decide
  · rw [hnf]
    decide
  · rw [filter_rmmdet_eq_rule6]
    have h6 : rule6 dNoPn = [rmmDetailed dNoPn] := rfl
    have hdet : rmmDetailed dNoPn
        = { id := "rmm-check-detailed"
            title := "Conferência Detalhada: NF vs RMM"
            description := "Comparação item a item (agrupada por PN) entre Nota Fiscal e Relação de Materiais."
            status := CheckStatus.FAIL
            details := some "Alguns itens da Nota Fiscal não foram encontrados no RMM."
            subItems := some [⟨"S/N - parafuso grande...", CheckStatus.FAIL,
              "Item não encontrado no RMM"⟩] } := by
      unfold rmmDetailed
      rw [if_pos (by decide : dNoPn.notaFiscal.items ≠ [])]
      simp only [hnf, hrmm]
      decide
    rw [h6, hdet]
    decide

/-! Claim C7 (corrected).  The claim's "exactly when" omits two guards of
the code: the receipt identifier must be truthy, and the first candidate
whose digit form equals the receipt digit form must itself be non-empty
(the JS `if (match)` is false on the empty string).  A bundle meeting the
claim's condition but failing one of these guards is left unchanged. -/

/-- Modelled from the words of claim C7: invoice and receipt found, their
normalized identifiers differ, and some candidate's normalization equals the
receipt's normalized identifier.  Used only to compare the claim against the
code. -/
def prePassClaimCond (d : ExtractedData) : Bool :=
  d.notaFiscal.found && d.termoRecebimento.found
    && (normDigitsOpt d.notaFiscal.cnpj ≠ normDigitsOpt d.termoRecebimento.cnpj)
    && d.notaFiscal.possibleCnpjs.any
        (fun c => normDigits c == normDigitsOpt d.termoRecebimento.cnpj)

/-- Bundle for the C7 counterexample: receipt identifier "ab" (truthy, no
digits), invoice identifier "1", candidate list whose first
receipt-normalization match is the empty string (the JS find stops there and
the truthiness test then discards it), although the non-empty candidate "xy"
also matches. -/
def dEmptyMatch : ExtractedData :=
  { baseData with
    termoRecebimento := { baseData.termoRecebimento with
      found := true, cnpj := some "ab" }
    notaFiscal := { baseData.notaFiscal with
      found := true, cnpj := some "1", possibleCnpjs := ["", "xy"] } }

/-- Counterexample for C7 as stated: the claim's replacement condition holds
(both records found, normalized identifiers "1" and "" differ, and the
candidate "xy" normalizes to the receipt's normalized identifier ""), yet
the pre-pass changes nothing — the invoice identifier is not replaced by any
matching value. -/
theorem C7_counterexample :
    prePassClaimCond dEmptyMatch = true
    ∧ prePass dEmptyMatch = dEmptyMatch
    ∧ dEmptyMatch.notaFiscal.cnpj = some "1"
    ∧ dEmptyMatch.notaFiscal.possibleCnpjs.find?
        (fun c => normDigits c == normDigitsOpt dEmptyMatch.termoRecebimento.cnpj)
      = some "" := by
  decide

/-- Modelled from the amended claim C7: the pre-pass replaces the invoice
identifier with the first candidate whose digit form equals the receipt
digit form, exactly when invoice and receipt are found, the receipt
identifier is truthy, the two digit forms differ, and that first matching
candidate is non-empty; otherwise it changes nothing. -/
def prePassSpec (d : ExtractedData) : ExtractedData :=
  if d.notaFiscal.found = true ∧ d.termoRecebimento.found = true
      ∧ strTruthy d.termoRecebimento.cnpj = true
      ∧ normDigitsOpt d.notaFiscal.cnpj ≠ normDigitsOpt d.termoRecebimento.cnpj
  then
    match d.notaFiscal.possibleCnpjs.find?
        (fun c => normDigits c == normDigitsOpt d.termoRecebimento.cnpj) with
    | some m =>
        if m ≠ "" then
          { d with notaFiscal := { d.notaFiscal with cnpj := some m } }
        else d
    | none => d
  else d

lemma prePass_cases (d : ExtractedData) :
    prePass d = d
    ∨ ∃ m, m ≠ ""
        ∧ normDigits m = normDigits (d.termoRecebimento.cnpj.getD "")
        ∧ d.termoRecebimento.found = true
        ∧ strTruthy d.termoRecebimento.cnpj = true
        ∧ d.notaFiscal.found = true
        ∧ prePass d
          = { d with notaFiscal := { d.notaFiscal with cnpj := some m } } := by
  by_cases h1 : (d.termoRecebimento.found && strTruthy d.termoRecebimento.cnpj
      && d.notaFiscal.found) = true
  · have h1' : d.termoRecebimento.found = true
        ∧ strTruthy d.termoRecebimento.cnpj = true
        ∧ d.notaFiscal.found = true := by
      simpa [Bool.and_eq_true, and_assoc] using h1
    by_cases h2 : normDigits (d.termoRecebimento.cnpj.getD "")
        = normDigitsOpt d.notaFiscal.cnpj
    · left
      simp [prePass, h1, h2]
    · by_cases h3 : d.notaFiscal.possibleCnpjs.length > 0
      · cases hm : d.notaFiscal.possibleCnpjs.find?
            (fun c => normDigits c
              == normDigits (d.termoRecebimento.cnpj.getD "")) with
        | none =>
            left
            simp [prePass, h1, h2, h3, hm]
        | some m =>
            by_cases hm0 : m = ""
            · left
              simp [prePass, h1, h2, h3, hm, hm0]
            · right
              refine ⟨m, hm0, by simpa using List.find?_some hm,
                h1'.1, h1'.2.1, h1'.2.2, ?_⟩
              simp [prePass, h1, h2, h3, hm, hm0]
      · left
        simp [prePass, h1, h2, h3]
  · left
    simp [prePass, h1]

/-- C7 (amended): the pre-pass is idempotent, agrees with the amended
replacement condition `prePassSpec`, and changes nothing but the invoice
primary identifier. -/
theorem C7_prepass (d : ExtractedData) :
    prePass (prePass d) = prePass d
    ∧ prePass d = prePassSpec d
    ∧ ∃ c, prePass d
        = { d with notaFiscal := { d.notaFiscal with cnpj := c } } := by
  have hidem : prePass (prePass d) = prePass d := by
    rcases prePass_cases d with h | ⟨m, hm0, hmq, hf, ht, hn, hrep⟩
    · rw [h, h]
    · rw [hrep]
      simp [prePass, hf, ht, hn, normDigitsOpt, hmq]
  have hshape : ∃ c, prePass d
      = { d with notaFiscal := { d.notaFiscal with cnpj := c } } := by
    rcases prePass_cases d with h | ⟨m, _, _, _, _, _, hrep⟩
    · exact ⟨d.notaFiscal.cnpj, by rw [h]⟩
    · exact ⟨some m, hrep⟩
  have hspec : prePass d = prePassSpec d := by
    by_cases h1 : (d.termoRecebimento.found && strTruthy d.termoRecebimento.cnpj
        && d.notaFiscal.found) = true
    · have h1' : d.termoRecebimento.found = true
          ∧ strTruthy d.termoRecebimento.cnpj = true
          ∧ d.notaFiscal.found = true := by
        simpa [Bool.and_eq_true, and_assoc] using h1
      by_cases h2 : normDigits (d.termoRecebimento.cnpj.getD "")
          = normDigits (d.notaFiscal.cnpj.getD "")
      · simp [prePass, prePassSpec, h1, h2, normDigitsOpt, h1'.1, h1'.2.1,
          h1'.2.2]
      · by_cases h3 : d.notaFiscal.possibleCnpjs.length > 0
        · simp only [prePass, prePassSpec, h1, if_true, normDigitsOpt]
          simp only [h1'.1, h1'.2.1, h1'.2.2, true_and, and_true, ne_eq, h3,
            not_false_iff]
          rw [if_pos h2, if_pos (fun hcon => h2 hcon.symm)]
        · have hp : d.notaFiscal.possibleCnpjs = [] :=
            List.length_eq_zero.mp (Nat.eq_zero_of_not_pos h3)
          simp [prePass, prePassSpec, h1, h2, h3, hp, normDigitsOpt,
            h1'.1, h1'.2.1, h1'.2.2]
    · have h1' : ¬(d.notaFiscal.found = true ∧ d.termoRecebimento.found = true
          ∧ strTruthy d.termoRecebimento.cnpj = true
          ∧ normDigitsOpt d.notaFiscal.cnpj
            ≠ normDigitsOpt d.termoRecebimento.cnpj) := by
        intro ⟨hn, hf, ht, _⟩
        exact h1 (by simp [hn, hf, ht])
      simp [prePass, prePassSpec, h1, h1']
  exact ⟨hidem, hspec, hshape⟩

/-- Bundle for the C7 witness: the receipt identifier and one invoice
candidate share the digit form 12345678000199 while the invoice identifier
differs. -/
def dCorrect : ExtractedData :=
  { baseData with
    termoRecebimento := { baseData.termoRecebimento with
      found := true, cnpj := some "12.345.678/0001-99" }
    notaFiscal := { baseData.notaFiscal with
      found := true, cnpj := some "99.999.999/0001-00"
      possibleCnpjs := ["99999999000100", "12345678000199"] } }

/-- Witness for C7 at a concrete bundle: the pre-pass is idempotent there,
and it replaces the invoice identifier with the matching candidate. -/
theorem C7_prepass_witness :
    prePass (prePass dCorrect) = prePass dCorrect
    ∧ (prePass dCorrect).notaFiscal.cnpj = some "12345678000199" := by
  refine ⟨(C7_prepass dCorrect).1, ?_⟩
  have h := (C7_prepass dCorrect).2.1
  rw [h]
  decide

/-! Claim C9. -/

/-- C9: the evaluation is a pure function of the bundle — it is the
composition of the identifier pre-pass and the rule function, and equal
bundles evaluate to identical ordered finding lists.  (In this embedding the
engine is a function by construction; the theorem records that nothing else
enters the evaluation.) -/
theorem C9_deterministic (d₁ d₂ : ExtractedData) (h : d₁ = d₂) :
    evaluate d₁ = evaluate d₂
    ∧ evaluate d₁ = runAuditRules (prePass d₁) := by
  subst h
  exact ⟨rfl, rfl⟩

/-- Witness for C9 at a concrete bundle. -/
theorem C9_deterministic_witness :
    evaluate baseData = evaluate baseData :=
  (C9_deterministic baseData baseData rfl).1

end AuditAI
